import Mathlib

/-!
Verification of the utilization-aware skip-over dequeue algorithm and the
queue broker of the mimir query scheduler core, as a shallow embedding.

Machine integers are modelled as Int (Go int arithmetic on the involved
values never overflows in the scenarios considered), the float64
targetReservedCapacity as Rat, and Go runtime faults (slice index out of
range) as an explicit error value of type Except.
-/

namespace MimirQueue

/-- The two downstream query component kinds; the Go code also returns the
empty string when no component matched, modelled by the third constructor. -/
inductive QueryComponent where
  | ingester
  | storeGateway
  | empty
deriving DecidableEq, Repr

/-- Name of the ingester routing dimension. Modelled from the spec: the two
component kinds are recognized by a name-matching predicate over the routing
dimension string; the constant itself is not under src. -/
def ingesterQueueDimension : String := "ingester"

/-- Name of the store-gateway routing dimension. Modelled from the spec. -/
def storeGatewayQueueDimension : String := "store-gateway"

/-- Modelled from the spec: queryComponentFlags is not under src; the spec
says the component kinds are two fixed kinds identified by a name-matching
predicate, so a name maps to the ingester flag, the store-gateway flag, or
neither. -/
def queryComponentFlags (name : String) : Bool × Bool :=
  (name == ingesterQueueDimension, name == storeGatewayQueueDimension)

/-- Per component in-flight counters plus the configured reserved-capacity
fraction, from the QueryComponentUtilization struct (fields as used by the
code under src). -/
structure QueryComponentUtilization where
  targetReservedCapacity : ℚ
  ingesterInflightRequests : ℤ
  storeGatewayInflightRequests : ℤ
deriving DecidableEq, Repr

/-- The queryComponentUtilizationReserveConnections struct from src. -/
structure queryComponentUtilizationReserveConnections where
  utilization : QueryComponentUtilization
  connectedWorkers : ℤ
  waitingWorkers : ℤ
  queueLen : ℤ
deriving DecidableEq, Repr

/-- The minimum number of connections to hold in reserve: ceil of
max(targetReservedCapacity times connectedWorkers, 1) when the target is
positive, else 0 (feature disabled). From ExceedsThresholdForComponentName
in src. -/
def minReservedConnections (qcurc : queryComponentUtilizationReserveConnections) : ℤ :=
  if 0 < qcurc.utilization.targetReservedCapacity then
    ⌈max (qcurc.utilization.targetReservedCapacity * (qcurc.connectedWorkers : ℚ)) 1⌉
  else 0

/-- ExceedsThresholdForComponentName from src: false with at most one
connected worker; otherwise true for the matching component kind whenever
connectedWorkers minus that component in-flight count is at most the
reserved minimum. -/
def ExceedsThresholdForComponentName
    (qcurc : queryComponentUtilizationReserveConnections) (name : String) :
    Bool × QueryComponent :=
  if qcurc.connectedWorkers ≤ 1 then
    (false, .empty)
  else
    let minReserved := minReservedConnections qcurc
    let flags := queryComponentFlags name
    if flags.1 &&
        decide (qcurc.connectedWorkers - qcurc.utilization.ingesterInflightRequests ≤ minReserved) then
      (true, .ingester)
    else if flags.2 &&
        decide (qcurc.connectedWorkers - qcurc.utilization.storeGatewayInflightRequests ≤ minReserved) then
      (true, .storeGateway)
    else
      (false, .empty)

/-- TriggerUtilizationCheck from src: skip the check when there are more
waiting workers than queued items. -/
def TriggerUtilizationCheck (qcurc : queryComponentUtilizationReserveConnections) : Bool :=
  if qcurc.queueLen < qcurc.waitingWorkers then false else true

/-- The sentinel cursor value selecting the local queue of a node. Modelled
from the spec and the test fixture: the test initializes
currentNodeOrderIndex to -1 and the addChildNode comment in src says index
-1 cannot slice into nodeOrder, so the sentinel is -1. -/
def localQueueIndex : ℤ := -1

/-- A leaf child node of the query-component level: a name and a local FIFO
of opaque items (modelled as strings, front of the queue at the head).
Modelled from the spec: the Node type is not under src; the claims only need
the two-level tree of the test fixture, parent plus leaf children, and a
leaf node is empty exactly when its local queue is empty. -/
structure ChildNode where
  name : String
  localQueue : List String
deriving DecidableEq, Repr

/-- The parent node governed by the skip-over algorithm: local FIFO plus a
map from child name to child node, modelled as an association list with
unique keys. Modelled from the spec (Node is not under src). -/
structure Node where
  name : String
  localQueue : List String
  queueMap : List (String × ChildNode)
deriving DecidableEq, Repr

/-- Lookup in the child map (Go map read; missing key gives a nil pointer,
modelled as none). -/
def lookupChild (m : List (String × ChildNode)) (k : String) : Option ChildNode :=
  (m.find? (fun p => p.1 == k)).map (fun p => p.2)

/-- Go map assignment: replace the entry for the key if present, else add
it. -/
def insertChild (m : List (String × ChildNode)) (k : String) (c : ChildNode) :
    List (String × ChildNode) :=
  if (m.find? (fun p => p.1 == k)).isSome then
    m.map (fun p => if p.1 == k then (k, c) else p)
  else
    m ++ [(k, c)]

/-- Go map delete. -/
def eraseChild (m : List (String × ChildNode)) (k : String) : List (String × ChildNode) :=
  m.filter (fun p => !(p.1 == k))

/-- The loop in dequeueUpdateState in src that removes the first occurrence
of a name from nodeOrder and then breaks. -/
def removeFirstName : List String → String → List String
  | [], _ => []
  | n :: rest, x => if n == x then rest else n :: removeFirstName rest x

/-- The queryComponentUtilizationDequeueSkipOverThreshold struct from src.
The threshold interface field is instantiated with its only implementation,
queryComponentUtilizationReserveConnections. -/
structure queryComponentUtilizationDequeueSkipOverThreshold where
  queryComponentUtilizationThreshold : queryComponentUtilizationReserveConnections
  currentNodeOrderIndex : ℤ
  nodeOrder : List String
  nodesChecked : ℕ
  nodesSkippedOrder : List String
deriving DecidableEq, Repr

/-- checkedAllNodes from src: a full pass is complete and no skipped nodes
remain. -/
def checkedAllNodes (qcud : queryComponentUtilizationDequeueSkipOverThreshold) : Bool :=
  qcud.nodesChecked == qcud.nodeOrder.length + 1 && qcud.nodesSkippedOrder.isEmpty

/-- addChildNode from src: the child is registered in the parent map; with
the cursor at the local-queue sentinel the name is appended at the tail of
nodeOrder, otherwise it is inserted at the cursor index and the cursor is
incremented. -/
def addChildNode (qcud : queryComponentUtilizationDequeueSkipOverThreshold)
    (parent : Node) (child : ChildNode) :
    queryComponentUtilizationDequeueSkipOverThreshold × Node :=
  let parent1 : Node :=
    { parent with queueMap := insertChild parent.queueMap child.name child }
  if qcud.currentNodeOrderIndex == localQueueIndex then
    ({ qcud with nodeOrder := qcud.nodeOrder ++ [child.name] }, parent1)
  else
    ({ qcud with
        nodeOrder :=
          qcud.nodeOrder.take qcud.currentNodeOrderIndex.toNat ++
            child.name :: qcud.nodeOrder.drop qcud.currentNodeOrderIndex.toNat,
        currentNodeOrderIndex := qcud.currentNodeOrderIndex + 1 }, parent1)

/-- What dequeueSelectNode selected: the node itself (local queue) or a
child node; the Go nil result is the surrounding Option none. -/
inductive DequeuedFrom where
  | self
  | child (c : ChildNode)
deriving DecidableEq, Repr

/-- Go runtime faults of the embedded code and the driver: a slice index
out of range, or the recursion fuel of the modelled driver running out. -/
inductive RuntimeErr where
  | indexOutOfRange
  | outOfFuel
deriving DecidableEq, Repr

/-- dequeueSelectNode from src. At the sentinel it selects the local queue.
During the first pass it reads nodeOrder at the cursor (index out of range
is a Go panic, modelled as the error result), skips an over-threshold node
by queueing its name on nodesSkippedOrder and advancing, and otherwise
selects the child under the cursor. Once the first pass is complete it pops
the skipped list. -/
def dequeueSelectNode (qcud : queryComponentUtilizationDequeueSkipOverThreshold)
    (node : Node) :
    Except RuntimeErr
      (Option DequeuedFrom × Bool × queryComponentUtilizationDequeueSkipOverThreshold) :=
  if qcud.currentNodeOrderIndex == localQueueIndex then
    .ok (some .self, checkedAllNodes qcud, qcud)
  else
    let checkedAllNodesBeforeSkips := qcud.nodesChecked == qcud.nodeOrder.length + 1
    if !checkedAllNodesBeforeSkips then
      if h : 0 ≤ qcud.currentNodeOrderIndex ∧
          qcud.currentNodeOrderIndex.toNat < qcud.nodeOrder.length then
        let currentNodeName := qcud.nodeOrder.get ⟨qcud.currentNodeOrderIndex.toNat, h.2⟩
        if TriggerUtilizationCheck qcud.queryComponentUtilizationThreshold then
          if (ExceedsThresholdForComponentName
              qcud.queryComponentUtilizationThreshold currentNodeName).1 then
            let qcud1 :=
              { qcud with
                  nodesSkippedOrder := qcud.nodesSkippedOrder ++ [currentNodeName],
                  currentNodeOrderIndex := qcud.currentNodeOrderIndex + 1,
                  nodesChecked := qcud.nodesChecked + 1 }
            .ok (none, checkedAllNodes qcud1, qcud1)
          else
            let qcud1 := { qcud with nodesChecked := qcud.nodesChecked + 1 }
            .ok ((lookupChild node.queueMap currentNodeName).map .child,
              checkedAllNodes qcud1, qcud1)
        else
          let qcud1 := { qcud with nodesChecked := qcud.nodesChecked + 1 }
          .ok ((lookupChild node.queueMap currentNodeName).map .child,
            checkedAllNodes qcud1, qcud1)
      else
        .error .indexOutOfRange
    else
      match qcud.nodesSkippedOrder with
      | [] => .ok (none, checkedAllNodes qcud, qcud)
      | n :: rest =>
        let qcud1 := { qcud with nodesSkippedOrder := rest }
        .ok ((lookupChild node.queueMap n).map .child, checkedAllNodes qcud1, qcud1)

/-- dequeueUpdateState from src: nothing happens for a nil dequeued-from
node; an emptied child is deleted from the parent map and its first
occurrence removed from nodeOrder without advancing the cursor; otherwise
the cursor advances; then the cursor wraps to the local-queue sentinel at
or past the end of nodeOrder and the per-pass counter resets. -/
def dequeueUpdateState (qcud : queryComponentUtilizationDequeueSkipOverThreshold)
    (node : Node) (dequeuedFrom : Option DequeuedFrom) :
    queryComponentUtilizationDequeueSkipOverThreshold × Node :=
  match dequeuedFrom with
  | none => (qcud, node)
  | some df =>
    let step :
        queryComponentUtilizationDequeueSkipOverThreshold × Node :=
      match df with
      | .self =>
        ({ qcud with currentNodeOrderIndex := qcud.currentNodeOrderIndex + 1 }, node)
      | .child c =>
        if c.localQueue.isEmpty then
          ({ qcud with nodeOrder := removeFirstName qcud.nodeOrder c.name },
            { node with queueMap := eraseChild node.queueMap c.name })
        else
          ({ qcud with currentNodeOrderIndex := qcud.currentNodeOrderIndex + 1 }, node)
    let qcud1 := step.1
    let qcud2 :=
      if (qcud1.nodeOrder.length : ℤ) ≤ qcud1.currentNodeOrderIndex then
        { qcud1 with currentNodeOrderIndex := localQueueIndex }
      else qcud1
    ({ qcud2 with nodesChecked := 0 }, step.2)

/-- Whether the two-level node is empty: empty local queue and no children.
Modelled from the spec: emptied children are pruned immediately, so the
subtree has zero items exactly when the local queue is empty and the child
map is empty. -/
def nodeIsEmpty (node : Node) : Bool :=
  node.localQueue.isEmpty && node.queueMap.isEmpty

/-- One tree dequeue call at the parent node. Modelled from the spec: the
driver repeatedly asks the selection algorithm for a node until an item is
found or the algorithm reports that all nodes were checked; a selected
child has its front item popped (children are leaves at this level), and
dequeueUpdateState is informed of every non-nil selected node so that an
emptied child is pruned and the rotation advances. The recursion is bounded
by fuel; exhausting it is reported as an error distinct from the index
fault. Returns the dequeued path (root name, then child name when a child
was dequeued from) and the item when one was found. -/
def dequeueLoop :
    ℕ → queryComponentUtilizationDequeueSkipOverThreshold → Node →
    Except RuntimeErr
      ((List String × Option String) × queryComponentUtilizationDequeueSkipOverThreshold × Node)
  | 0, _, _ => .error .outOfFuel
  | fuel + 1, qcud, node =>
    match dequeueSelectNode qcud node with
    | .error e => .error e
    | .ok (sel, checkedAll, qcud1) =>
      match sel with
      | some .self =>
        match node.localQueue with
        | x :: rest =>
          let node1 := { node with localQueue := rest }
          let su := dequeueUpdateState qcud1 node1 (some .self)
          .ok (([node.name], some x), su)
        | [] =>
          let su := dequeueUpdateState qcud1 node (some .self)
          if checkedAll then .ok (([node.name], none), su)
          else dequeueLoop fuel su.1 su.2
      | some (.child c) =>
        match c.localQueue with
        | x :: rest =>
          let c1 := { c with localQueue := rest }
          let node1 := { node with queueMap := insertChild node.queueMap c.name c1 }
          let su := dequeueUpdateState qcud1 node1 (some (.child c1))
          .ok (([node.name, c.name], some x), su)
        | [] =>
          let su := dequeueUpdateState qcud1 node (some (.child c))
          if checkedAll then .ok (([node.name], none), su)
          else dequeueLoop fuel su.1 su.2
      | none =>
        let su := dequeueUpdateState qcud1 node none
        if checkedAll then .ok (([node.name], none), su)
        else dequeueLoop fuel su.1 su.2

/-- Tree.Dequeue at the root of the two-level tree. Modelled from the spec:
an empty root returns immediately with an empty path and no item; the
returned path excludes the root node name (the test fixture expects the
path of the dequeued child only, and an empty path for the empty tree). -/
def treeDequeue (fuel : ℕ) (qcud : queryComponentUtilizationDequeueSkipOverThreshold)
    (node : Node) :
    Except RuntimeErr
      ((List String × Option String) × queryComponentUtilizationDequeueSkipOverThreshold × Node) :=
  if nodeIsEmpty node then
    .ok (([], none), qcud, node)
  else
    match dequeueLoop fuel qcud node with
    | .error e => .error e
    | .ok ((path, item), st) => .ok ((path.drop 1, item), st)

/-- Tree.EnqueueBackByPath for the two-level tree. Modelled from the spec:
enqueue to an empty path appends to the local queue of the root; enqueue to
a single-segment path appends to that child, creating the child lazily and
registering it with addChildNode on first enqueue. The test fixture only
uses single-segment paths below the skip-over level. -/
def enqueueBackByPath (qcud : queryComponentUtilizationDequeueSkipOverThreshold)
    (node : Node) (path : List String) (v : String) :
    queryComponentUtilizationDequeueSkipOverThreshold × Node :=
  match path with
  | [] => (qcud, { node with localQueue := node.localQueue ++ [v] })
  | name :: _ =>
    match lookupChild node.queueMap name with
    | some c =>
      (qcud,
        { node with
            queueMap := insertChild node.queueMap name
              { c with localQueue := c.localQueue ++ [v] } })
    | none =>
      let step := addChildNode qcud node ⟨name, []⟩
      (step.1,
        { step.2 with queueMap := insertChild step.2.queueMap name ⟨name, [v]⟩ })

/-- An operation of the test fixture: an enqueue to a path or a dequeue. -/
inductive TestOp where
  | enqueue (path : List String) (obj : String)
  | dequeue
deriving DecidableEq, Repr

/-- Run a sequence of test operations from a given state, collecting the
path and item returned by each dequeue. -/
def runOps :
    List TestOp → queryComponentUtilizationDequeueSkipOverThreshold → Node →
    Except RuntimeErr (List (List String × Option String))
  | [], _, _ => .ok []
  | .enqueue p v :: rest, qcud, node =>
    let st := enqueueBackByPath qcud node p v
    runOps rest st.1 st.2
  | .dequeue :: rest, qcud, node =>
    match treeDequeue 32 qcud node with
    | .error e => .error e
    | .ok (res, qcud1, node1) =>
      match runOps rest qcud1 node1 with
      | .error e => .error e
      | .ok tail => .ok (res :: tail)

/-- The initial skip-over state of the test fixture: cursor at the
local-queue sentinel, no known nodes, threshold checker with 10 connected
workers, reserved capacity 2/5 and one waiting worker. -/
def testInitialAlgo : queryComponentUtilizationDequeueSkipOverThreshold :=
  { queryComponentUtilizationThreshold :=
      { utilization :=
          { targetReservedCapacity := 2/5
            ingesterInflightRequests := 0
            storeGatewayInflightRequests := 0 }
        connectedWorkers := 10
        waitingWorkers := 1
        queueLen := 0 }
    currentNodeOrderIndex := localQueueIndex
    nodeOrder := []
    nodesChecked := 0
    nodesSkippedOrder := [] }

/-- The empty root node. -/
def testInitialRoot : Node := { name := "root", localQueue := [], queueMap := [] }

/-- The operation sequence of the observed test fixture. -/
def testOps : List TestOp :=
  [ .enqueue ["child-1"] "obj-1"
  , .enqueue ["child-2"] "obj-2"
  , .enqueue ["child-3"] "obj-3"
  , .enqueue ["child-3"] "obj-4"
  , .enqueue ["child-2"] "obj-5"
  , .enqueue ["child-1"] "obj-6"
  , .dequeue
  , .dequeue
  , .dequeue
  , .dequeue
  , .dequeue
  , .enqueue ["child-1"] "obj-7"
  , .dequeue
  , .dequeue
  , .dequeue ]

/-- An operation on the skip-over algorithm state, as invoked by the tree:
registering a new child, a node selection, or a post-dequeue state update. -/
inductive AlgoOp where
  | add (c : ChildNode)
  | select
  | update (df : Option DequeuedFrom)
deriving DecidableEq, Repr

/-- Run a sequence of algorithm operations, threading the algorithm state
and the parent node; a selection fault aborts the run. -/
def runAlgoOps :
    List AlgoOp → queryComponentUtilizationDequeueSkipOverThreshold → Node →
    Except RuntimeErr (queryComponentUtilizationDequeueSkipOverThreshold × Node)
  | [], qcud, node => .ok (qcud, node)
  | .add c :: rest, qcud, node =>
    let st := addChildNode qcud node c
    runAlgoOps rest st.1 st.2
  | .select :: rest, qcud, node =>
    match dequeueSelectNode qcud node with
    | .error e => .error e
    | .ok (_, _, qcud1) => runAlgoOps rest qcud1 node
  | .update df :: rest, qcud, node =>
    let st := dequeueUpdateState qcud node df
    runAlgoOps rest st.1 st.2

/-! The queue broker -/

/-- Generic association-list lookup, modelling a Go map read. -/
def alistFind {α : Type} {κ : Type} [BEq κ] (m : List (κ × α)) (k : κ) : Option α :=
  (m.find? (fun p => p.1 == k)).map (fun p => p.2)

/-- Generic association-list insertion, modelling a Go map assignment:
replace in place when the key is present, else add at the end. -/
def alistPut {α : Type} {κ : Type} [BEq κ] (m : List (κ × α)) (k : κ) (v : α) :
    List (κ × α) :=
  if (m.find? (fun p => p.1 == k)).isSome then
    m.map (fun p => if p.1 == k then (k, v) else p)
  else
    m ++ [(k, v)]

/-- Generic association-list deletion, modelling a Go map delete. -/
def alistDel {α : Type} {κ : Type} [BEq κ] (m : List (κ × α)) (k : κ) : List (κ × α) :=
  m.filter (fun p => !(p.1 == k))

/-- A request payload: a scheduler request carrying the optional additional
queue dimensions, or a frontend request carrying none. From the types used
by makeQueuePath in src. -/
inductive Request where
  | scheduler (additionalQueueDimensions : List String)
  | frontend
deriving DecidableEq, Repr

/-- The tenantRequest struct from src: a payload with its owning tenant. -/
structure tenantRequest where
  tenantID : String
  req : Request
deriving DecidableEq, Repr

/-- Tenant bookkeeping entry (queueTenant in src; the fields the claims
need). -/
structure queueTenant where
  tenantID : String
  maxQueriers : ℤ
deriving DecidableEq, Repr

/-- Querier connection state (querierConn; the field the claims need). -/
structure querierConn where
  shuttingDown : Bool
deriving DecidableEq, Repr

/-- The tenant subtree, flattened for the broker claims: buckets of queued
requests keyed by the remaining queue path below the tenant segment (the
empty key is the local queue of the tenant node). Modelled from the spec:
the Tree and Node types are not under src and no broker claim depends on
per-level rotation inside a tenant subtree. -/
abbrev TenantSubtree : Type := List (List String × List tenantRequest)

/-- Total number of items in a tenant subtree (ItemCount of the tenant
node). -/
def tenantItemCount (node : TenantSubtree) : ℕ :=
  (node.map (fun b => b.2.length)).sum

/-- The queueBroker struct from src, with the tenant-querier assignment
state folded in (tenantQuerierIDs entry none means the tenant is eligible
for every querier). The tree field is the root child map in first-seen
order, which doubles as the rotation order of the root level. -/
structure queueBroker where
  tree : List (String × TenantSubtree)
  queriersByID : List (String × querierConn)
  tenantsByID : List (String × queueTenant)
  tenantQuerierIDs : List (String × Option (List String))
  sharedQueuePosition : ℤ
  currentQuerier : String
  maxTenantQueueSize : ℤ
  additionalQueueDimensionsEnabled : Bool
deriving DecidableEq, Repr

/-- The distinct enqueue error of the broker (ErrTooManyRequests in src). -/
inductive EnqueueError where
  | tooManyRequests
deriving DecidableEq, Repr

/-- The distinct dequeue error of the broker (ErrQuerierShuttingDown in
src, returned for an unknown or shutting-down querier). -/
inductive DequeueError where
  | querierShuttingDown
deriving DecidableEq, Repr

/-- makeQueuePath from src: tenant segment plus the additional queue
dimensions of a scheduler request when the feature is enabled, else the
tenant segment alone. -/
def makeQueuePath (qb : queueBroker) (request : tenantRequest) : List String :=
  if qb.additionalQueueDimensionsEnabled then
    match request.req with
    | .scheduler dims => request.tenantID :: dims
    | .frontend => [request.tenantID]
  else
    [request.tenantID]

/-- Modelled from the spec: createOrUpdateTenant is not under src; the spec
says it registers a tenant if unseen or updates its shard width, and
recomputes the eligible subset on a width change. The deterministic shard
subset computation is irrelevant to the claims settled here, so a
registered tenant keeps the eligible-for-all marker; no failure mode is
described. -/
def createOrUpdateTenant (qb : queueBroker) (tenantID : String) (maxQueriers : ℤ) :
    queueBroker :=
  { qb with
      tenantsByID := alistPut qb.tenantsByID tenantID ⟨tenantID, maxQueriers⟩
      tenantQuerierIDs :=
        match alistFind qb.tenantQuerierIDs tenantID with
        | some _ => qb.tenantQuerierIDs
        | none => qb.tenantQuerierIDs ++ [(tenantID, none)] }

/-- Modelled from the spec: removeTenant is not under src; it removes the
tenant registration from the assignment bookkeeping. -/
def removeTenant (qb : queueBroker) (tenantID : String) : queueBroker :=
  { qb with
      tenantsByID := alistDel qb.tenantsByID tenantID
      tenantQuerierIDs := alistDel qb.tenantQuerierIDs tenantID }

/-- Append a request at the tail of the bucket for the given remaining path
inside a tenant subtree, creating the bucket if missing. Modelled from the
spec (lazy node creation along the path). -/
def subtreeEnqueueBack (node : TenantSubtree) (rest : List String) (r : tenantRequest) :
    TenantSubtree :=
  match alistFind node rest with
  | some items => alistPut node rest (items ++ [r])
  | none => node ++ [(rest, [r])]

/-- Prepend a request at the head of the bucket for the given remaining
path inside a tenant subtree. Modelled from the spec (front re-enqueue has
priority over pending items at the same node). -/
def subtreeEnqueueFront (node : TenantSubtree) (rest : List String) (r : tenantRequest) :
    TenantSubtree :=
  match alistFind node rest with
  | some items => alistPut node rest (r :: items)
  | none => node ++ [(rest, [r])]

/-- Enqueue at the tail along a full queue path in the broker tree,
creating the tenant node lazily. Modelled from the spec. -/
def treeEnqueueBack (tree : List (String × TenantSubtree)) (tenantKey : String)
    (rest : List String) (r : tenantRequest) : List (String × TenantSubtree) :=
  match alistFind tree tenantKey with
  | some node => alistPut tree tenantKey (subtreeEnqueueBack node rest r)
  | none => tree ++ [(tenantKey, [(rest, [r])])]

/-- Enqueue at the head along a full queue path in the broker tree.
Modelled from the spec. -/
def treeEnqueueFront (tree : List (String × TenantSubtree)) (tenantKey : String)
    (rest : List String) (r : tenantRequest) : List (String × TenantSubtree) :=
  match alistFind tree tenantKey with
  | some node => alistPut tree tenantKey (subtreeEnqueueFront node rest r)
  | none => tree ++ [(tenantKey, [(rest, [r])])]

/-- enqueueRequestBack from src: ensure the tenant registration, compute
the queue path, reject with the too-many-requests error when the tenant
queue node exists and already holds the configured maximum, else enqueue at
the tail. -/
def enqueueRequestBack (qb : queueBroker) (request : tenantRequest)
    (tenantMaxQueriers : ℤ) : queueBroker × Option EnqueueError :=
  let qb1 := createOrUpdateTenant qb request.tenantID tenantMaxQueriers
  let queuePath := makeQueuePath qb1 request
  let tenantKey := queuePath.headD ""
  match alistFind qb1.tree tenantKey with
  | some node =>
    if qb1.maxTenantQueueSize < (tenantItemCount node : ℤ) + 1 then
      (qb1, some .tooManyRequests)
    else
      ({ qb1 with tree := treeEnqueueBack qb1.tree tenantKey queuePath.tail request }, none)
  | none =>
    ({ qb1 with tree := treeEnqueueBack qb1.tree tenantKey queuePath.tail request }, none)

/-- enqueueRequestFront from src: identical path computation, no backlog
check, enqueue at the head. -/
def enqueueRequestFront (qb : queueBroker) (request : tenantRequest)
    (tenantMaxQueriers : ℤ) : queueBroker × Option EnqueueError :=
  let qb1 := createOrUpdateTenant qb request.tenantID tenantMaxQueriers
  let queuePath := makeQueuePath qb1 request
  let tenantKey := queuePath.headD ""
  ({ qb1 with tree := treeEnqueueFront qb1.tree tenantKey queuePath.tail request }, none)

/-- Whether a tenant is eligible for the current querier. Modelled from the
spec: the eligible-for-all marker or an absent assignment admits every
querier, otherwise membership in the assigned subset decides. -/
def tenantEligible (qb : queueBroker) (tenantID : String) : Bool :=
  match alistFind qb.tenantQuerierIDs tenantID with
  | none => true
  | some none => true
  | some (some l) => l.contains qb.currentQuerier

/-- One dequeue pass of the root tree. Modelled from the spec: rotate over
the tenant nodes starting after the shared queue position, skip tenants not
eligible for the current querier, take the front item of the first bucket
of the first candidate, prune emptied buckets and tenant nodes, and record
the position. Returns the full dequeued path including the root name, and
the item when one was found. -/
def rootDequeue (qb : queueBroker) : (List String × Option tenantRequest) × queueBroker :=
  let n := qb.tree.length
  let pick :=
    (List.range n).findSome? (fun k =>
      let i := ((qb.sharedQueuePosition + 1 + (k : ℤ)).emod (n : ℤ)).toNat
      match qb.tree[i]? with
      | none => none
      | some (tname, node) =>
        if tenantEligible qb tname then
          match node with
          | [] => none
          | (rest, items) :: moreBuckets =>
            match items with
            | [] => none
            | r :: others => some (i, tname, rest, r, others, moreBuckets)
        else none)
  match pick with
  | none => ((["root"], none), qb)
  | some (i, tname, rest, r, others, moreBuckets) =>
    let node1 : TenantSubtree :=
      if others.isEmpty then moreBuckets else (rest, others) :: moreBuckets
    let tree1 :=
      if node1.isEmpty then alistDel qb.tree tname else alistPut qb.tree tname node1
    ((["root", tname] ++ rest, some r),
      { qb with tree := tree1, sharedQueuePosition := (i : ℤ) })

/-- Whether getNode finds a node for the given path from the root: the
empty path is the root itself, one segment is a tenant node, further
segments are a bucket below the tenant. Modelled from the spec. -/
def getNodeExists (qb : queueBroker) : List String → Bool
  | [] => true
  | t :: rest =>
    match alistFind qb.tree t with
    | none => false
    | some node =>
      match rest with
      | [] => true
      | _ => (alistFind node rest).isSome

/-- dequeueRequestForQuerier from src: reject with the distinct error when
the querier is unknown or shutting down, leaving all state unchanged;
otherwise record the querier and the caller position, perform a tree
dequeue, extract the tenant segment from the dequeued path, look up the
tenant bookkeeping, drop the tenant registration when its queue node
disappeared, and return with no error. -/
def dequeueRequestForQuerier (qb : queueBroker) (lastTenantIndex : ℤ)
    (querierID : String) :
    (Option tenantRequest × Option queueTenant × ℤ × Option DequeueError) × queueBroker :=
  match alistFind qb.queriersByID querierID with
  | none => ((none, none, qb.sharedQueuePosition, some .querierShuttingDown), qb)
  | some q =>
    if q.shuttingDown then
      ((none, none, qb.sharedQueuePosition, some .querierShuttingDown), qb)
    else
      let qb1 := { qb with currentQuerier := querierID, sharedQueuePosition := lastTenantIndex }
      let step := rootDequeue qb1
      let queuePath := step.1.1
      let queueElement := step.1.2
      let qb2 := step.2
      let tenantID := if 1 < queuePath.length then queuePath.getD 1 "" else ""
      let tenant := alistFind qb2.tenantsByID tenantID
      let qb3 :=
        if getNodeExists qb2 (queuePath.drop 1) then qb2 else removeTenant qb2 tenantID
      ((queueElement, tenant, qb3.sharedQueuePosition, none), qb3)

/-- The bucket of queued requests stored for a tenant and remaining path,
empty when the node does not exist; used to state enqueue effects. -/
def bucketOf (tree : List (String × TenantSubtree)) (tenantKey : String)
    (rest : List String) : List tenantRequest :=
  ((alistFind tree tenantKey).bind (fun node => alistFind node rest)).getD []

/-- A single-child overload scenario: one worker pool of 10 connected
workers, reserved-capacity feature set to 0, the ingester already holding
10 in-flight requests, and no spare waiting workers, so the utilization
check triggers and the ingester node is over threshold. -/
def overloadedAlgo : queryComponentUtilizationDequeueSkipOverThreshold :=
  { queryComponentUtilizationThreshold :=
      { utilization :=
          { targetReservedCapacity := 0
            ingesterInflightRequests := 10
            storeGatewayInflightRequests := 0 }
        connectedWorkers := 10
        waitingWorkers := 0
        queueLen := 1 }
    currentNodeOrderIndex := localQueueIndex
    nodeOrder := []
    nodesChecked := 0
    nodesSkippedOrder := [] }

end MimirQueue

namespace MimirQueue

/-! Helper lemmas -/

theorem removeFirstName_eq_erase (l : List String) (x : String) :
    removeFirstName l x = l.erase x := by
  induction l with
  | nil => rfl
  | cons a as ih =>
    rw [removeFirstName, List.erase_cons]
    by_cases h : (a == x) = true
    · simp [h]
    · simp only [Bool.not_eq_true] at h
      simp [h, ih]

theorem lookupChild_eraseChild (m : List (String × ChildNode)) (k : String) :
    lookupChild (eraseChild m k) k = none := by
  unfold lookupChild eraseChild
  rw [List.find?_eq_none.mpr]
  · rfl
  · intro p hp
    rcases List.mem_filter.mp hp with ⟨-, h2⟩
    simp only [Bool.not_eq_true'] at h2
    simp [h2]

theorem string_dimensions_distinct :
    ingesterQueueDimension ≠ storeGatewayQueueDimension := by decide

theorem triggerCheck_iff (qcurc : queryComponentUtilizationReserveConnections) :
    TriggerUtilizationCheck qcurc = true ↔ qcurc.waitingWorkers ≤ qcurc.queueLen := by
  unfold TriggerUtilizationCheck
  split_ifs with h
  · exact iff_of_false (by simp) (by omega)
  · exact iff_of_true rfl (by omega)

/-! Claim theorems -/

/-- C1: ExceedsThresholdForComponentName returns false whenever at most one
worker is connected; with more than one connected worker it returns true
exactly when the name matches a recognized component kind (ingester or
store-gateway) and connectedWorkers minus that component in-flight count is
at most minReserved, where minReserved is the ceiling of
max(targetReservedCapacity times connectedWorkers, 1) for a positive target
and 0 otherwise; a name matching neither kind always yields false. -/
theorem exceedsThreshold_characterization
    (qcurc : queryComponentUtilizationReserveConnections) (name : String) :
    (qcurc.connectedWorkers ≤ 1 →
      (ExceedsThresholdForComponentName qcurc name).1 = false) ∧
    (1 < qcurc.connectedWorkers →
      ((ExceedsThresholdForComponentName qcurc name).1 = true ↔
        ((name = ingesterQueueDimension ∧
            qcurc.connectedWorkers - qcurc.utilization.ingesterInflightRequests ≤
              (if 0 < qcurc.utilization.targetReservedCapacity then
                ⌈max (qcurc.utilization.targetReservedCapacity *
                    (qcurc.connectedWorkers : ℚ)) 1⌉
              else 0)) ∨
          (name = storeGatewayQueueDimension ∧
            qcurc.connectedWorkers - qcurc.utilization.storeGatewayInflightRequests ≤
              (if 0 < qcurc.utilization.targetReservedCapacity then
                ⌈max (qcurc.utilization.targetReservedCapacity *
                    (qcurc.connectedWorkers : ℚ)) 1⌉
              else 0))))) ∧
    (name ≠ ingesterQueueDimension → name ≠ storeGatewayQueueDimension →
      (ExceedsThresholdForComponentName qcurc name).1 = false) := by
  refine ⟨?_, ?_, ?_⟩
  · intro h
    simp [ExceedsThresholdForComponentName, h]
  · intro h
    have hn : ¬ qcurc.connectedWorkers ≤ 1 := by omega
    have hmr :
        (if 0 < qcurc.utilization.targetReservedCapacity then
            ⌈max (qcurc.utilization.targetReservedCapacity *
                (qcurc.connectedWorkers : ℚ)) 1⌉
          else 0) = minReservedConnections qcurc := rfl
    rw [hmr]
    simp only [ExceedsThresholdForComponentName, if_neg hn, queryComponentFlags]
    by_cases hi : name = ingesterQueueDimension <;>
      by_cases hs : name = storeGatewayQueueDimension
    · exact absurd (hi.symm.trans hs) string_dimensions_distinct
    · by_cases hci :
        qcurc.connectedWorkers ≤
          minReservedConnections qcurc + qcurc.utilization.ingesterInflightRequests
      · simp [hi, hs, hci, string_dimensions_distinct]
      · simp [hi, hs, hci, string_dimensions_distinct]
    · by_cases hcs :
        qcurc.connectedWorkers ≤
          minReservedConnections qcurc + qcurc.utilization.storeGatewayInflightRequests
      · simp [hi, hs, hcs, string_dimensions_distinct,
          Ne.symm string_dimensions_distinct]
      · simp [hi, hs, hcs, string_dimensions_distinct,
          Ne.symm string_dimensions_distinct]
    · simp [hi, hs]
  · intro hi hs
    simp [ExceedsThresholdForComponentName, queryComponentFlags, hi, hs]

/-- Witness for C1 at a concrete overloaded checker: ten connected workers,
reserved-capacity target 0, ten in-flight ingester requests. -/
theorem exceedsThreshold_characterization_witness :
    (1 : ℤ) < 10 ∧
      ((ExceedsThresholdForComponentName ⟨⟨0, 10, 0⟩, 10, 0, 1⟩ "ingester").1 = true ↔
        (("ingester" = ingesterQueueDimension ∧
            (10 : ℤ) - 10 ≤
              (if (0 : ℚ) < 0 then ⌈max ((0 : ℚ) * ((10 : ℤ) : ℚ)) 1⌉ else 0)) ∨
          ("ingester" = storeGatewayQueueDimension ∧
            (10 : ℤ) - 0 ≤
              (if (0 : ℚ) < 0 then ⌈max ((0 : ℚ) * ((10 : ℤ) : ℚ)) 1⌉ else 0)))) :=
  ⟨by decide,
    (exceedsThreshold_characterization ⟨⟨0, 10, 0⟩, 10, 0, 1⟩ "ingester").2.1 (by decide)⟩

/-- C2: during the first rotation pass with the cursor at a valid
non-sentinel position, dequeueSelectNode skips the current node (returns no
node, appends the node name to the skipped list, advances the cursor and
counts the node as checked) exactly when the utilization check is triggered
(waitingWorkers at most queueLen) and the node component exceeds the
reserved-capacity threshold; otherwise it selects the current child and
counts the node as checked. -/
theorem dequeueSelectNode_first_pass
    (qcud : queryComponentUtilizationDequeueSkipOverThreshold) (node : Node)
    (c : ChildNode)
    (hsent : qcud.currentNodeOrderIndex ≠ localQueueIndex)
    (hfirst : qcud.nodesChecked < qcud.nodeOrder.length + 1)
    (h0 : 0 ≤ qcud.currentNodeOrderIndex)
    (hlt : qcud.currentNodeOrderIndex.toNat < qcud.nodeOrder.length)
    (hc : lookupChild node.queueMap
        (qcud.nodeOrder.get ⟨qcud.currentNodeOrderIndex.toNat, hlt⟩) = some c) :
    ((qcud.queryComponentUtilizationThreshold.waitingWorkers ≤
          qcud.queryComponentUtilizationThreshold.queueLen ∧
        (ExceedsThresholdForComponentName qcud.queryComponentUtilizationThreshold
            (qcud.nodeOrder.get ⟨qcud.currentNodeOrderIndex.toNat, hlt⟩)).1 = true) →
      dequeueSelectNode qcud node =
        .ok (none,
          checkedAllNodes
            { qcud with
                nodesSkippedOrder := qcud.nodesSkippedOrder ++
                  [qcud.nodeOrder.get ⟨qcud.currentNodeOrderIndex.toNat, hlt⟩]
                currentNodeOrderIndex := qcud.currentNodeOrderIndex + 1
                nodesChecked := qcud.nodesChecked + 1 },
          { qcud with
              nodesSkippedOrder := qcud.nodesSkippedOrder ++
                [qcud.nodeOrder.get ⟨qcud.currentNodeOrderIndex.toNat, hlt⟩]
              currentNodeOrderIndex := qcud.currentNodeOrderIndex + 1
              nodesChecked := qcud.nodesChecked + 1 })) ∧
    (¬(qcud.queryComponentUtilizationThreshold.waitingWorkers ≤
          qcud.queryComponentUtilizationThreshold.queueLen ∧
        (ExceedsThresholdForComponentName qcud.queryComponentUtilizationThreshold
            (qcud.nodeOrder.get ⟨qcud.currentNodeOrderIndex.toNat, hlt⟩)).1 = true) →
      dequeueSelectNode qcud node =
        .ok (some (.child c),
          checkedAllNodes { qcud with nodesChecked := qcud.nodesChecked + 1 },
          { qcud with nodesChecked := qcud.nodesChecked + 1 })) := by
  have hb : (qcud.currentNodeOrderIndex == localQueueIndex) = false := by
    simpa using hsent
  have hnc : (qcud.nodesChecked == qcud.nodeOrder.length + 1) = false := by
    simp only [beq_eq_false_iff_ne]
    omega
  constructor
  · rintro ⟨ht, he⟩
    have htr : TriggerUtilizationCheck qcud.queryComponentUtilizationThreshold = true :=
      (triggerCheck_iff _).mpr ht
    rw [dequeueSelectNode]
    simp only [hb, Bool.false_eq_true, if_false, hnc, Bool.not_false, if_true]
    rw [dif_pos ⟨h0, hlt⟩, htr]
    simp only [if_true, he]
  · intro hno
    rw [dequeueSelectNode]
    simp only [hb, Bool.false_eq_true, if_false, hnc, Bool.not_false, if_true]
    rw [dif_pos ⟨h0, hlt⟩]
    by_cases ht : qcud.queryComponentUtilizationThreshold.waitingWorkers ≤
        qcud.queryComponentUtilizationThreshold.queueLen
    · have htr : TriggerUtilizationCheck qcud.queryComponentUtilizationThreshold = true :=
        (triggerCheck_iff _).mpr ht
      have he : (ExceedsThresholdForComponentName qcud.queryComponentUtilizationThreshold
          (qcud.nodeOrder.get ⟨qcud.currentNodeOrderIndex.toNat, hlt⟩)).1 = false := by
        rcases hEB : (ExceedsThresholdForComponentName qcud.queryComponentUtilizationThreshold
            (qcud.nodeOrder.get ⟨qcud.currentNodeOrderIndex.toNat, hlt⟩)).1 with _ | _
        · rfl
        · exact absurd ⟨ht, hEB⟩ hno
      rw [htr]
      simp only [if_true, he, Bool.false_eq_true, if_false, hc]
      rfl
    · have htr : TriggerUtilizationCheck qcud.queryComponentUtilizationThreshold = false :=
        Bool.eq_false_iff.mpr (fun hh => ht ((triggerCheck_iff _).mp hh))
      rw [htr]
      simp only [Bool.false_eq_true, if_false, hc]
      rfl

/-- Witness for C2 at a concrete state: one known node named ingester, the
cursor on it, overloaded checker, so the skip branch fires. -/
theorem dequeueSelectNode_first_pass_witness :
    dequeueSelectNode
        { queryComponentUtilizationThreshold := ⟨⟨0, 10, 0⟩, 10, 0, 1⟩
          currentNodeOrderIndex := 0
          nodeOrder := ["ingester"]
          nodesChecked := 0
          nodesSkippedOrder := [] }
        ⟨"root", [], [("ingester", ⟨"ingester", ["obj-1"]⟩)]⟩ =
      .ok (none, false,
        { queryComponentUtilizationThreshold := ⟨⟨0, 10, 0⟩, 10, 0, 1⟩
          currentNodeOrderIndex := 1
          nodeOrder := ["ingester"]
          nodesChecked := 1
          nodesSkippedOrder := ["ingester"] }) :=
  (dequeueSelectNode_first_pass
      { queryComponentUtilizationThreshold := ⟨⟨0, 10, 0⟩, 10, 0, 1⟩
        currentNodeOrderIndex := 0
        nodeOrder := ["ingester"]
        nodesChecked := 0
        nodesSkippedOrder := [] }
      ⟨"root", [], [("ingester", ⟨"ingester", ["obj-1"]⟩)]⟩
      ⟨"ingester", ["obj-1"]⟩
      (by decide) (by decide) (by decide) (by decide) (by rfl)).1
    ⟨by decide, by decide⟩

/-- C3 (code evaluated at the failing input): with a single known child
named ingester holding one item and an overloaded checker (utilization
check triggered, ingester over threshold), a dequeue call does not return
the skipped item: after the skip leaves the cursor at position 1 in a
one-element nodeOrder, the next read of nodeOrder inside dequeueSelectNode
is out of range, a Go runtime panic. The skipped-list drain branch requires
nodesChecked to equal len(nodeOrder)+1, which can only be reached through
that out-of-range read, so the drain never executes. -/
theorem starvation_dequeue_faults :
    runOps [.enqueue ["ingester"] "obj-1", .dequeue] overloadedAlgo testInitialRoot =
      .error .indexOutOfRange := by rfl

/-- C4: the end-to-end fixture scenario. Enqueueing obj-1 to obj-6 across
child-1, child-2, child-3 in the fixture order and dequeuing five times
yields obj-1, obj-2, obj-3, obj-6 and obj-5 at the expected children; after
enqueueing obj-7 to child-1, the next two dequeues yield obj-4 from child-3
and obj-7 from child-1; the final dequeue on the empty tree returns the
empty path with no item. -/
theorem fixture_scenario :
    runOps testOps testInitialAlgo testInitialRoot =
      .ok [(["child-1"], some "obj-1"),
        (["child-2"], some "obj-2"),
        (["child-3"], some "obj-3"),
        (["child-1"], some "obj-6"),
        (["child-2"], some "obj-5"),
        (["child-3"], some "obj-4"),
        (["child-1"], some "obj-7"),
        ([], none)] := by rfl

/-- C10 (code evaluated at the failing input): a reachable operation
sequence from the initial skip-over state under which dequeueSelectNode
reads nodeOrder at cursor index 1 while nodeOrder has length 1: add one
child named ingester (cursor at sentinel, so nodeOrder becomes a singleton),
advance off the sentinel with a dequeueUpdateState for the local queue, let
one select skip the over-threshold child (cursor moves to 1 with no wrap),
and select again. The claimed bounds property fails: the read is out of
range, a Go runtime panic. -/
theorem select_reads_out_of_bounds :
    runAlgoOps
        [.add ⟨"ingester", ["obj-1"]⟩, .update (some .self), .select, .select]
        overloadedAlgo testInitialRoot =
      .error .indexOutOfRange := by rfl

/-- C5 counterexample: a concrete state whose skipped list holds the name
of the emptied child. After dequeueUpdateState the child is removed from
the parent map and from nodeOrder, but the stale skipped-list entry is NOT
pruned, contradicting the claim that any stale entry for the child in the
skipped list is pruned. -/
theorem update_keeps_stale_skip_entry :
    ((dequeueUpdateState
        { queryComponentUtilizationThreshold := ⟨⟨0, 0, 0⟩, 0, 0, 0⟩
          currentNodeOrderIndex := 0
          nodeOrder := ["child-1"]
          nodesChecked := 2
          nodesSkippedOrder := ["child-1"] }
        ⟨"root", [], [("child-1", ⟨"child-1", []⟩)]⟩
        (some (.child ⟨"child-1", []⟩))).1.nodeOrder = [] ∧
      (dequeueUpdateState
        { queryComponentUtilizationThreshold := ⟨⟨0, 0, 0⟩, 0, 0, 0⟩
          currentNodeOrderIndex := 0
          nodeOrder := ["child-1"]
          nodesChecked := 2
          nodesSkippedOrder := ["child-1"] }
        ⟨"root", [], [("child-1", ⟨"child-1", []⟩)]⟩
        (some (.child ⟨"child-1", []⟩))).2.queueMap = []) ∧
      (dequeueUpdateState
        { queryComponentUtilizationThreshold := ⟨⟨0, 0, 0⟩, 0, 0, 0⟩
          currentNodeOrderIndex := 0
          nodeOrder := ["child-1"]
          nodesChecked := 2
          nodesSkippedOrder := ["child-1"] }
        ⟨"root", [], [("child-1", ⟨"child-1", []⟩)]⟩
        (some (.child ⟨"child-1", []⟩))).1.nodesSkippedOrder = ["child-1"] := by
  exact ⟨⟨rfl, rfl⟩, rfl⟩

/-- C5 amended: after a dequeue that returned a child, dequeueUpdateState
removes an emptied child from the parent map and removes its first
occurrence from nodeOrder without advancing the cursor, while the skipped
list is left unchanged (no stale-entry pruning happens); for a non-emptied
child it advances the cursor by one and changes nothing else; in both cases
the cursor wraps to the local-queue sentinel when it reaches or passes the
length of nodeOrder, and the per-pass nodes-checked counter resets to 0. -/
theorem dequeueUpdateState_characterization
    (qcud : queryComponentUtilizationDequeueSkipOverThreshold) (node : Node)
    (c : ChildNode) :
    (c.localQueue = [] →
      (dequeueUpdateState qcud node (some (.child c))).1.nodeOrder =
          qcud.nodeOrder.erase c.name ∧
        lookupChild (dequeueUpdateState qcud node (some (.child c))).2.queueMap c.name =
          none ∧
        (dequeueUpdateState qcud node (some (.child c))).1.currentNodeOrderIndex =
          (if ((qcud.nodeOrder.erase c.name).length : ℤ) ≤ qcud.currentNodeOrderIndex then
            localQueueIndex
          else qcud.currentNodeOrderIndex) ∧
        (dequeueUpdateState qcud node (some (.child c))).1.nodesChecked = 0 ∧
        (dequeueUpdateState qcud node (some (.child c))).1.nodesSkippedOrder =
          qcud.nodesSkippedOrder) ∧
    (c.localQueue ≠ [] →
      (dequeueUpdateState qcud node (some (.child c))).1.nodeOrder = qcud.nodeOrder ∧
        (dequeueUpdateState qcud node (some (.child c))).2 = node ∧
        (dequeueUpdateState qcud node (some (.child c))).1.currentNodeOrderIndex =
          (if (qcud.nodeOrder.length : ℤ) ≤ qcud.currentNodeOrderIndex + 1 then
            localQueueIndex
          else qcud.currentNodeOrderIndex + 1) ∧
        (dequeueUpdateState qcud node (some (.child c))).1.nodesChecked = 0 ∧
        (dequeueUpdateState qcud node (some (.child c))).1.nodesSkippedOrder =
          qcud.nodesSkippedOrder) := by
  constructor
  · intro hce
    have hb : c.localQueue.isEmpty = true := by simp [hce]
    by_cases hw : ((qcud.nodeOrder.erase c.name).length : ℤ) ≤ qcud.currentNodeOrderIndex
    · simp [dequeueUpdateState, hb, removeFirstName_eq_erase, lookupChild_eraseChild, hw]
    · simp [dequeueUpdateState, hb, removeFirstName_eq_erase, lookupChild_eraseChild, hw]
  · intro hcne
    have hb : c.localQueue.isEmpty = false := by
      cases hq : c.localQueue with
      | nil => exact absurd hq hcne
      | cons a l => rfl
    by_cases hw : ((qcud.nodeOrder.length : ℤ)) ≤ qcud.currentNodeOrderIndex + 1
    · simp [dequeueUpdateState, hb, hw]
    · simp [dequeueUpdateState, hb, hw]

/-- Witness for the amended C5 at a concrete emptied child. -/
theorem dequeueUpdateState_characterization_witness :
    (ChildNode.mk "child-1" []).localQueue = [] ∧
      ((dequeueUpdateState
          { queryComponentUtilizationThreshold := ⟨⟨0, 0, 0⟩, 0, 0, 0⟩
            currentNodeOrderIndex := 0
            nodeOrder := ["child-1", "child-2"]
            nodesChecked := 2
            nodesSkippedOrder := ["stale"] }
          ⟨"root", [], [("child-1", ⟨"child-1", []⟩), ("child-2", ⟨"child-2", ["x"]⟩)]⟩
          (some (.child ⟨"child-1", []⟩))).1.nodeOrder =
          (["child-1", "child-2"].erase "child-1") ∧
        lookupChild (dequeueUpdateState
          { queryComponentUtilizationThreshold := ⟨⟨0, 0, 0⟩, 0, 0, 0⟩
            currentNodeOrderIndex := 0
            nodeOrder := ["child-1", "child-2"]
            nodesChecked := 2
            nodesSkippedOrder := ["stale"] }
          ⟨"root", [], [("child-1", ⟨"child-1", []⟩), ("child-2", ⟨"child-2", ["x"]⟩)]⟩
          (some (.child ⟨"child-1", []⟩))).2.queueMap "child-1" = none ∧
        (dequeueUpdateState
          { queryComponentUtilizationThreshold := ⟨⟨0, 0, 0⟩, 0, 0, 0⟩
            currentNodeOrderIndex := 0
            nodeOrder := ["child-1", "child-2"]
            nodesChecked := 2
            nodesSkippedOrder := ["stale"] }
          ⟨"root", [], [("child-1", ⟨"child-1", []⟩), ("child-2", ⟨"child-2", ["x"]⟩)]⟩
          (some (.child ⟨"child-1", []⟩))).1.currentNodeOrderIndex =
          (if (((["child-1", "child-2"] : List String).erase "child-1").length : ℤ) ≤ 0 then
            localQueueIndex
          else 0) ∧
        (dequeueUpdateState
          { queryComponentUtilizationThreshold := ⟨⟨0, 0, 0⟩, 0, 0, 0⟩
            currentNodeOrderIndex := 0
            nodeOrder := ["child-1", "child-2"]
            nodesChecked := 2
            nodesSkippedOrder := ["stale"] }
          ⟨"root", [], [("child-1", ⟨"child-1", []⟩), ("child-2", ⟨"child-2", ["x"]⟩)]⟩
          (some (.child ⟨"child-1", []⟩))).1.nodesChecked = 0 ∧
        (dequeueUpdateState
          { queryComponentUtilizationThreshold := ⟨⟨0, 0, 0⟩, 0, 0, 0⟩
            currentNodeOrderIndex := 0
            nodeOrder := ["child-1", "child-2"]
            nodesChecked := 2
            nodesSkippedOrder := ["stale"] }
          ⟨"root", [], [("child-1", ⟨"child-1", []⟩), ("child-2", ⟨"child-2", ["x"]⟩)]⟩
          (some (.child ⟨"child-1", []⟩))).1.nodesSkippedOrder = ["stale"]) :=
  ⟨rfl,
    (dequeueUpdateState_characterization
        { queryComponentUtilizationThreshold := ⟨⟨0, 0, 0⟩, 0, 0, 0⟩
          currentNodeOrderIndex := 0
          nodeOrder := ["child-1", "child-2"]
          nodesChecked := 2
          nodesSkippedOrder := ["stale"] }
        ⟨"root", [], [("child-1", ⟨"child-1", []⟩), ("child-2", ⟨"child-2", ["x"]⟩)]⟩
        ⟨"child-1", []⟩).1 rfl⟩

/-- C6: addChildNode with the cursor at the local-queue sentinel appends
the new child name at the tail of nodeOrder and leaves the cursor at the
sentinel; at a valid non-sentinel cursor position it inserts the name at
the cursor index and increments the cursor, so the new name sits
immediately behind the cursor and the element previously under the cursor
remains the current one. -/
theorem addChildNode_inserts_behind_cursor
    (qcud : queryComponentUtilizationDequeueSkipOverThreshold) (parent : Node)
    (child : ChildNode) :
    (qcud.currentNodeOrderIndex = localQueueIndex →
      (addChildNode qcud parent child).1.nodeOrder = qcud.nodeOrder ++ [child.name] ∧
        (addChildNode qcud parent child).1.currentNodeOrderIndex = localQueueIndex) ∧
    (∀ i : ℕ, qcud.currentNodeOrderIndex = (i : ℤ) → i < qcud.nodeOrder.length →
      (addChildNode qcud parent child).1.nodeOrder =
          qcud.nodeOrder.take i ++ child.name :: qcud.nodeOrder.drop i ∧
        (addChildNode qcud parent child).1.currentNodeOrderIndex = (i : ℤ) + 1 ∧
        ((addChildNode qcud parent child).1.nodeOrder)[i]? = some child.name ∧
        ((addChildNode qcud parent child).1.nodeOrder)[i + 1]? = qcud.nodeOrder[i]?) := by
  constructor
  · intro h
    simp [addChildNode, h]
  · intro i hi hilen
    have hb : (qcud.currentNodeOrderIndex == localQueueIndex) = false := by
      rw [beq_eq_false_iff_ne, hi]
      simp only [localQueueIndex]
      omega
    have htn : qcud.currentNodeOrderIndex.toNat = i := by
      rw [hi]
      exact Int.toNat_natCast i
    have hlen : (qcud.nodeOrder.take i).length = i := by
      rw [List.length_take]
      omega
    have hout : (addChildNode qcud parent child).1 =
        { qcud with
            nodeOrder := qcud.nodeOrder.take i ++ child.name :: qcud.nodeOrder.drop i
            currentNodeOrderIndex := (i : ℤ) + 1 } := by
      rw [hi] at hb htn
      simp only [addChildNode, hi, hb, Bool.false_eq_true, if_false, htn]
    refine ⟨by rw [hout], by rw [hout], ?_, ?_⟩
    · rw [hout]
      show (qcud.nodeOrder.take i ++ child.name :: qcud.nodeOrder.drop i)[i]? =
        some child.name
      rw [List.getElem?_append_right (le_of_eq hlen), hlen, Nat.sub_self,
        List.getElem?_cons_zero]
    · rw [hout]
      show (qcud.nodeOrder.take i ++ child.name :: qcud.nodeOrder.drop i)[i + 1]? =
        qcud.nodeOrder[i]?
      rw [List.getElem?_append_right (by rw [hlen]; omega), hlen,
        (by omega : i + 1 - i = 0 + 1), List.getElem?_cons_succ, List.getElem?_drop,
        Nat.add_zero]

/-- Witness for C6 at a concrete two-element rotation with the cursor on
the second element. -/
theorem addChildNode_inserts_behind_cursor_witness :
    (1 : ℤ) = ((1 : ℕ) : ℤ) ∧ (1 : ℕ) < 2 ∧
      ((addChildNode
          { queryComponentUtilizationThreshold := ⟨⟨0, 0, 0⟩, 0, 0, 0⟩
            currentNodeOrderIndex := 1
            nodeOrder := ["child-1", "child-2"]
            nodesChecked := 0
            nodesSkippedOrder := [] }
          ⟨"root", [], []⟩ ⟨"child-3", ["y"]⟩).1.nodeOrder =
          (["child-1", "child-2"] : List String).take 1 ++
            "child-3" :: (["child-1", "child-2"] : List String).drop 1 ∧
        (addChildNode
          { queryComponentUtilizationThreshold := ⟨⟨0, 0, 0⟩, 0, 0, 0⟩
            currentNodeOrderIndex := 1
            nodeOrder := ["child-1", "child-2"]
            nodesChecked := 0
            nodesSkippedOrder := [] }
          ⟨"root", [], []⟩ ⟨"child-3", ["y"]⟩).1.currentNodeOrderIndex = ((1 : ℕ) : ℤ) + 1 ∧
        ((addChildNode
          { queryComponentUtilizationThreshold := ⟨⟨0, 0, 0⟩, 0, 0, 0⟩
            currentNodeOrderIndex := 1
            nodeOrder := ["child-1", "child-2"]
            nodesChecked := 0
            nodesSkippedOrder := [] }
          ⟨"root", [], []⟩ ⟨"child-3", ["y"]⟩).1.nodeOrder)[(1 : ℕ)]? = some "child-3" ∧
        ((addChildNode
          { queryComponentUtilizationThreshold := ⟨⟨0, 0, 0⟩, 0, 0, 0⟩
            currentNodeOrderIndex := 1
            nodeOrder := ["child-1", "child-2"]
            nodesChecked := 0
            nodesSkippedOrder := [] }
          ⟨"root", [], []⟩ ⟨"child-3", ["y"]⟩).1.nodeOrder)[(1 : ℕ) + 1]? =
          (["child-1", "child-2"] : List String)[(1 : ℕ)]?) :=
  ⟨rfl, by decide,
    (addChildNode_inserts_behind_cursor
        { queryComponentUtilizationThreshold := ⟨⟨0, 0, 0⟩, 0, 0, 0⟩
          currentNodeOrderIndex := 1
          nodeOrder := ["child-1", "child-2"]
          nodesChecked := 0
          nodesSkippedOrder := [] }
        ⟨"root", [], []⟩ ⟨"child-3", ["y"]⟩).2 1 rfl (by decide)⟩

theorem alistFind_map_put {κ α : Type} [BEq κ] [LawfulBEq κ]
    (m : List (κ × α)) (k : κ) (v : α) :
    alistFind (m.map (fun p => if p.1 == k then (k, v) else p)) k =
      if (m.find? (fun p => p.1 == k)).isSome then some v else none := by
  induction m with
  | nil => rfl
  | cons a as ih =>
    by_cases h : (a.1 == k) = true
    · simp [alistFind, List.find?_cons, h]
    · simp only [Bool.not_eq_true] at h
      simp only [List.map_cons, h, Bool.false_eq_true, if_false, alistFind,
        List.find?_cons, List.find?] at ih ⊢
      exact ih

theorem alistFind_put_self {κ α : Type} [BEq κ] [LawfulBEq κ]
    (m : List (κ × α)) (k : κ) (v : α) :
    alistFind (alistPut m k v) k = some v := by
  unfold alistPut
  by_cases h : (m.find? (fun p => p.1 == k)).isSome = true
  · rw [if_pos h, alistFind_map_put, if_pos h]
  · rw [if_neg h]
    unfold alistFind
    rw [List.find?_append]
    have hnone : m.find? (fun p => p.1 == k) = none := by
      cases hf : m.find? (fun p => p.1 == k) with
      | none => rfl
      | some p => exact absurd (by rw [hf]; rfl) h
    rw [hnone]
    simp [List.find?]

theorem alistFind_append_single_of_none {κ α : Type} [BEq κ] [LawfulBEq κ]
    (m : List (κ × α)) (k : κ) (v : α) (h : alistFind m k = none) :
    alistFind (m ++ [(k, v)]) k = some v := by
  unfold alistFind at h ⊢
  rw [List.find?_append]
  cases hf : m.find? (fun p => p.1 == k) with
  | none => simp [List.find?]
  | some p =>
    rw [hf] at h
    exact absurd h (by simp)

theorem bucket_subtreeEnqueueBack (node : TenantSubtree) (rest : List String)
    (r : tenantRequest) :
    alistFind (subtreeEnqueueBack node rest r) rest =
      some ((alistFind node rest).getD [] ++ [r]) := by
  unfold subtreeEnqueueBack
  rcases hb : alistFind node rest with _ | items
  · simpa using alistFind_append_single_of_none node rest [r] hb
  · simpa using alistFind_put_self node rest (items ++ [r])

theorem bucket_subtreeEnqueueFront (node : TenantSubtree) (rest : List String)
    (r : tenantRequest) :
    alistFind (subtreeEnqueueFront node rest r) rest =
      some (r :: (alistFind node rest).getD []) := by
  unfold subtreeEnqueueFront
  rcases hb : alistFind node rest with _ | items
  · simpa using alistFind_append_single_of_none node rest [r] hb
  · simpa using alistFind_put_self node rest (r :: items)

theorem bucket_treeEnqueueBack (tree : List (String × TenantSubtree)) (t : String)
    (rest : List String) (r : tenantRequest) :
    bucketOf (treeEnqueueBack tree t rest r) t rest = bucketOf tree t rest ++ [r] := by
  unfold treeEnqueueBack bucketOf
  rcases hf : alistFind tree t with _ | node
  · rw [alistFind_append_single_of_none tree t _ hf]
    simp [alistFind, List.find?]
  · rw [alistFind_put_self]
    simp only [Option.some_bind]
    rw [bucket_subtreeEnqueueBack]
    simp

theorem bucket_treeEnqueueFront (tree : List (String × TenantSubtree)) (t : String)
    (rest : List String) (r : tenantRequest) :
    bucketOf (treeEnqueueFront tree t rest r) t rest = r :: bucketOf tree t rest := by
  unfold treeEnqueueFront bucketOf
  rcases hf : alistFind tree t with _ | node
  · rw [alistFind_append_single_of_none tree t _ hf]
    simp [alistFind, List.find?]
  · rw [alistFind_put_self]
    simp only [Option.some_bind]
    rw [bucket_subtreeEnqueueFront]
    simp

theorem makeQueuePath_headD (qb : queueBroker) (r : tenantRequest) :
    (makeQueuePath qb r).headD "" = r.tenantID := by
  unfold makeQueuePath
  split_ifs
  · cases r.req <;> rfl
  · rfl

theorem rootDequeue_empty (qb : queueBroker) (h : qb.tree = []) :
    rootDequeue qb = ((["root"], none), qb) := by
  rw [rootDequeue, h]
  rfl

/-- C7: enqueueRequestBack rejects with the too-many-requests error, with
the queue tree unchanged, exactly when the tenant queue node exists and its
item count is already at the configured maximum; otherwise it appends the
request at the tail of its bucket. enqueueRequestFront computes the path
with the same function on the same registration state, never returns the
too-many-requests error, and prepends at the head of the bucket. -/
theorem enqueue_backlog_enforcement
    (qb : queueBroker) (r : tenantRequest) (m : ℤ) :
    (makeQueuePath (createOrUpdateTenant qb r.tenantID m) r = makeQueuePath qb r) ∧
    (∀ node, alistFind qb.tree ((makeQueuePath qb r).headD "") = some node →
      (qb.maxTenantQueueSize < (tenantItemCount node : ℤ) + 1 →
        enqueueRequestBack qb r m =
          (createOrUpdateTenant qb r.tenantID m, some .tooManyRequests) ∧
        (enqueueRequestBack qb r m).1.tree = qb.tree) ∧
      ((tenantItemCount node : ℤ) + 1 ≤ qb.maxTenantQueueSize →
        (enqueueRequestBack qb r m).2 = none ∧
        bucketOf (enqueueRequestBack qb r m).1.tree ((makeQueuePath qb r).headD "")
            (makeQueuePath qb r).tail =
          bucketOf qb.tree ((makeQueuePath qb r).headD "") (makeQueuePath qb r).tail
            ++ [r])) ∧
    ((enqueueRequestFront qb r m).2 = none ∧
      bucketOf (enqueueRequestFront qb r m).1.tree ((makeQueuePath qb r).headD "")
          (makeQueuePath qb r).tail =
        r :: bucketOf qb.tree ((makeQueuePath qb r).headD "") (makeQueuePath qb r).tail) := by
  have epath : makeQueuePath (createOrUpdateTenant qb r.tenantID m) r =
      makeQueuePath qb r := rfl
  have etree : (createOrUpdateTenant qb r.tenantID m).tree = qb.tree := rfl
  have emax : (createOrUpdateTenant qb r.tenantID m).maxTenantQueueSize =
      qb.maxTenantQueueSize := rfl
  refine ⟨epath, ?_, ?_, ?_⟩
  · intro node hf
    constructor
    · intro hover
      have hcond : (createOrUpdateTenant qb r.tenantID m).maxTenantQueueSize <
          (tenantItemCount node : ℤ) + 1 := by rw [emax]; exact hover
      refine ⟨?_, ?_⟩
      · simp only [enqueueRequestBack, epath, etree, hf]
        rw [if_pos hcond]
      · simp only [enqueueRequestBack, epath, etree, hf]
        rw [if_pos hcond]
        exact etree
    · intro hunder
      have hcond : ¬ ((createOrUpdateTenant qb r.tenantID m).maxTenantQueueSize <
          (tenantItemCount node : ℤ) + 1) := by rw [emax]; omega
      refine ⟨?_, ?_⟩
      · simp only [enqueueRequestBack, epath, etree, hf]
        rw [if_neg hcond]
      · simp only [enqueueRequestBack, epath, etree, hf]
        rw [if_neg hcond]
        exact bucket_treeEnqueueBack qb.tree ((makeQueuePath qb r).headD "")
          (makeQueuePath qb r).tail r
  · rfl
  · simp only [enqueueRequestFront, epath, etree]
    exact bucket_treeEnqueueFront qb.tree ((makeQueuePath qb r).headD "")
      (makeQueuePath qb r).tail r

/-- Witness for C7: a broker whose tenant t1 already holds one item with a
per-tenant maximum of 1 rejects the next enqueueRequestBack and leaves the
tree unchanged. -/
theorem enqueue_backlog_enforcement_witness :
    ((1 : ℤ) <
        (tenantItemCount ([([], [⟨"t1", .frontend⟩])] : TenantSubtree) : ℤ) + 1) ∧
      (enqueueRequestBack
          { tree := [("t1", [([], [⟨"t1", .frontend⟩])])]
            queriersByID := []
            tenantsByID := []
            tenantQuerierIDs := []
            sharedQueuePosition := 0
            currentQuerier := ""
            maxTenantQueueSize := 1
            additionalQueueDimensionsEnabled := false }
          ⟨"t1", .frontend⟩ 0 =
        (createOrUpdateTenant
          { tree := [("t1", [([], [⟨"t1", .frontend⟩])])]
            queriersByID := []
            tenantsByID := []
            tenantQuerierIDs := []
            sharedQueuePosition := 0
            currentQuerier := ""
            maxTenantQueueSize := 1
            additionalQueueDimensionsEnabled := false }
          "t1" 0, some .tooManyRequests) ∧
        (enqueueRequestBack
          { tree := [("t1", [([], [⟨"t1", .frontend⟩])])]
            queriersByID := []
            tenantsByID := []
            tenantQuerierIDs := []
            sharedQueuePosition := 0
            currentQuerier := ""
            maxTenantQueueSize := 1
            additionalQueueDimensionsEnabled := false }
          ⟨"t1", .frontend⟩ 0).1.tree = [("t1", [([], [⟨"t1", .frontend⟩])])]) :=
  ⟨by decide,
    ((enqueue_backlog_enforcement
        { tree := [("t1", [([], [⟨"t1", .frontend⟩])])]
          queriersByID := []
          tenantsByID := []
          tenantQuerierIDs := []
          sharedQueuePosition := 0
          currentQuerier := ""
          maxTenantQueueSize := 1
          additionalQueueDimensionsEnabled := false }
        ⟨"t1", .frontend⟩ 0).2.1 [([], [⟨"t1", .frontend⟩])] rfl).1 (by decide)⟩

/-- C8: dequeueRequestForQuerier returns the distinct querier-not-active
error exactly when the querier is unregistered or marked shutting down, and
in that case returns the broker state unchanged with the original shared
rotation position; for an active querier the error component is always
none, and an empty tree yields a nil request, not an error. -/
theorem dequeueForQuerier_error_discipline
    (qb : queueBroker) (lastTenantIndex : ℤ) (querierID : String) :
    ((dequeueRequestForQuerier qb lastTenantIndex querierID).1.2.2.2 =
        some .querierShuttingDown ↔
      (alistFind qb.queriersByID querierID = none ∨
        ∃ q, alistFind qb.queriersByID querierID = some q ∧ q.shuttingDown = true)) ∧
    ((alistFind qb.queriersByID querierID = none ∨
        ∃ q, alistFind qb.queriersByID querierID = some q ∧ q.shuttingDown = true) →
      dequeueRequestForQuerier qb lastTenantIndex querierID =
        ((none, none, qb.sharedQueuePosition, some .querierShuttingDown), qb)) ∧
    (∀ q, alistFind qb.queriersByID querierID = some q → q.shuttingDown = false →
      (dequeueRequestForQuerier qb lastTenantIndex querierID).1.2.2.2 = none) ∧
    (∀ q, alistFind qb.queriersByID querierID = some q → q.shuttingDown = false →
      qb.tree = [] →
      (dequeueRequestForQuerier qb lastTenantIndex querierID).1.1 = none) := by
  cases hf : alistFind qb.queriersByID querierID with
  | none =>
    refine ⟨?_, ?_, ?_, ?_⟩
    · simp [dequeueRequestForQuerier, hf]
    · intro hcase
      simp [dequeueRequestForQuerier, hf]
    · intro q hq
      exact absurd hq (by simp)
    · intro q hq
      exact absurd hq (by simp)
  | some q =>
    cases hsd : q.shuttingDown with
    | true =>
      refine ⟨?_, ?_, ?_, ?_⟩
      · simp [dequeueRequestForQuerier, hf, hsd]
      · intro hcase
        simp [dequeueRequestForQuerier, hf, hsd]
      · intro q2 hq2 hq2sd
        cases hq2
        exact absurd (hsd.symm.trans hq2sd) (by simp)
      · intro q2 hq2 hq2sd
        cases hq2
        exact absurd (hsd.symm.trans hq2sd) (by simp)
    | false =>
      have hrd :
          qb.tree = [] →
          rootDequeue
              { qb with
                  currentQuerier := querierID
                  sharedQueuePosition := lastTenantIndex } =
            ((["root"], none),
              { qb with
                  currentQuerier := querierID
                  sharedQueuePosition := lastTenantIndex }) :=
        fun h => rootDequeue_empty _ h
      refine ⟨?_, ?_, ?_, ?_⟩
      · simp [dequeueRequestForQuerier, hf, hsd]
      · intro hcase
        rcases hcase with hnone | ⟨q2, hq2, hq2sd⟩
        · exact absurd hnone (by simp)
        · cases hq2
          exact absurd (hsd.symm.trans hq2sd) (by simp)
      · intro q2 hq2 hq2sd
        simp [dequeueRequestForQuerier, hf, hsd]
      · intro q2 hq2 hq2sd htree
        simp [dequeueRequestForQuerier, hf, hsd, hrd htree]

/-- Witness for C8: a registered, active querier named q1 on an empty
broker dequeues with no error. -/
theorem dequeueForQuerier_error_discipline_witness :
    alistFind ([("q1", ⟨false⟩)] : List (String × querierConn)) "q1" =
        some ⟨false⟩ ∧
      (querierConn.mk false).shuttingDown = false ∧
      (dequeueRequestForQuerier
          { tree := []
            queriersByID := [("q1", ⟨false⟩)]
            tenantsByID := []
            tenantQuerierIDs := []
            sharedQueuePosition := 0
            currentQuerier := ""
            maxTenantQueueSize := 5
            additionalQueueDimensionsEnabled := false }
          3 "q1").1.2.2.2 = none :=
  ⟨rfl, rfl,
    (dequeueForQuerier_error_discipline
        { tree := []
          queriersByID := [("q1", ⟨false⟩)]
          tenantsByID := []
          tenantQuerierIDs := []
          sharedQueuePosition := 0
          currentQuerier := ""
          maxTenantQueueSize := 5
          additionalQueueDimensionsEnabled := false }
        3 "q1").2.2.1 ⟨false⟩ rfl rfl⟩

/-- C9: the backlog check of enqueueRequestBack only applies when the
tenant queue node already exists in the tree; for an absent tenant node the
enqueue succeeds regardless of the configured maximum, and the request
becomes the sole element of the fresh bucket. -/
theorem enqueueBack_unseen_tenant_succeeds
    (qb : queueBroker) (r : tenantRequest) (m : ℤ)
    (h : alistFind qb.tree r.tenantID = none) :
    (enqueueRequestBack qb r m).2 = none ∧
      bucketOf (enqueueRequestBack qb r m).1.tree r.tenantID
        (makeQueuePath qb r).tail = [r] := by
  have hhead : (makeQueuePath qb r).headD "" = r.tenantID := makeQueuePath_headD qb r
  have epath : makeQueuePath (createOrUpdateTenant qb r.tenantID m) r =
      makeQueuePath qb r := rfl
  have etree : (createOrUpdateTenant qb r.tenantID m).tree = qb.tree := rfl
  constructor
  · simp only [enqueueRequestBack, epath, etree, hhead, h]
  · simp only [enqueueRequestBack, epath, etree, hhead, h]
    rw [bucket_treeEnqueueBack]
    unfold bucketOf
    rw [h]
    rfl

/-- Witness for C9: a previously unseen tenant enqueues successfully even
with the per-tenant maximum configured to 0. -/
theorem enqueueBack_unseen_tenant_succeeds_witness :
    alistFind ([] : List (String × TenantSubtree)) "t1" = none ∧
      ((enqueueRequestBack
          { tree := []
            queriersByID := []
            tenantsByID := []
            tenantQuerierIDs := []
            sharedQueuePosition := 0
            currentQuerier := ""
            maxTenantQueueSize := 0
            additionalQueueDimensionsEnabled := false }
          ⟨"t1", .frontend⟩ 7).2 = none ∧
        bucketOf (enqueueRequestBack
          { tree := []
            queriersByID := []
            tenantsByID := []
            tenantQuerierIDs := []
            sharedQueuePosition := 0
            currentQuerier := ""
            maxTenantQueueSize := 0
            additionalQueueDimensionsEnabled := false }
          ⟨"t1", .frontend⟩ 7).1.tree "t1"
          (makeQueuePath
            { tree := []
              queriersByID := []
              tenantsByID := []
              tenantQuerierIDs := []
              sharedQueuePosition := 0
              currentQuerier := ""
              maxTenantQueueSize := 0
              additionalQueueDimensionsEnabled := false }
            ⟨"t1", .frontend⟩).tail = [⟨"t1", .frontend⟩]) :=
  ⟨rfl,
    enqueueBack_unseen_tenant_succeeds
      { tree := []
        queriersByID := []
        tenantsByID := []
        tenantQuerierIDs := []
        sharedQueuePosition := 0
        currentQuerier := ""
        maxTenantQueueSize := 0
        additionalQueueDimensionsEnabled := false }
      ⟨"t1", .frontend⟩ 7 rfl⟩

end MimirQueue
